import Mathlib

/-!
Shallow embedding of the FAT32 read-only driver (kernel/src/fat32.cpp) and
proofs about it.

Modelling conventions:
* A disk is a map from LBA to an optional sector payload; `none` models a
  failing `read_sectors` call for any range touching that sector.
* Sector payloads are lists of naturals; every access normalizes a sector to
  exactly 512 bytes, each reduced mod 256, which is the guarantee the block
  layer gives to the driver (it always fills the caller's buffer completely).
* Machine arithmetic is modelled on `Nat` with explicit `% 2^32` / `% 2^64`
  at the points where the C++ source computes in `uint32_t` / `uint64_t`.
* The process-global cache (`cached_disk`, `cached_partition`,
  `partition_start`, `fat_bs`, `fat_is`) becomes an explicit `FatState`
  record threaded through the cache functions.  Dereferencing the boot-sector
  pointer while it is null is modelled as the `none` outcome of an `Option`
  result (the computation does not return normally).
* The unbounded `while` loops of the source are modelled with an explicit
  fuel parameter; a result of `none` means the loop has not terminated within
  the given fuel, and `(∀ fuel, ... = none)` proves genuine divergence.
-/

/-- One byte of a buffer: entry `i` of the list, absent positions read as 0,
reduced mod 256 so that every value is a byte. -/
def byteAt (b : List Nat) (i : Nat) : Nat :=
  b.getD i 0 % 256

/-- Little-endian 16-bit field at byte offset `i` (overlay of a packed
`uint16_t` on the buffer, as the C++ packed structs do on x86). -/
def le16 (b : List Nat) (i : Nat) : Nat :=
  byteAt b i + 256 * byteAt b (i + 1)

/-- Little-endian 32-bit field at byte offset `i` (overlay of a packed
`uint32_t` on the buffer). -/
def le32 (b : List Nat) (i : Nat) : Nat :=
  byteAt b i + 256 * byteAt b (i + 1) + 65536 * byteAt b (i + 2) +
    16777216 * byteAt b (i + 3)

/-- Normalize a raw sector to exactly 512 bytes (the block device always
fills a 512-byte sector buffer). -/
def norm512 (b : List Nat) : List Nat :=
  (List.range 512).map (fun i => byteAt b i)

/-- The disk handle: a unique id (`disk.uuid`, a `uint64_t`) plus the device
contents, sector by sector.  `sector lba = none` means reading that sector
fails. -/
structure Disk where
  uuid : Nat
  sector : Nat → Option (List Nat)

/-- The partition descriptor: unique id and start LBA (both `uint64_t`). -/
structure Partition where
  uuid : Nat
  start : Nat

/-- Model of `read_sectors(disk, start, count, buffer)`: reads `count`
consecutive sectors; fails (returns `none`) if any single sector read fails,
matching the all-or-nothing boolean of the block layer. -/
def readSectors (d : Disk) (lba : Nat) : Nat → Option (List Nat)
  | 0 => some []
  | n + 1 =>
    match d.sector lba, readSectors d (lba + 1) n with
    | some b, some rest => some (norm512 b ++ rest)
    | _, _ => none

/-- The fields of the packed `fat_bs_t` boot-sector overlay that the driver
reads (the remaining fields are dead in this translation unit). -/
structure BootSector where
  sectors_per_cluster : Nat
  reserved_sectors : Nat
  number_of_fat : Nat
  sectors_per_fat_long : Nat
  root_directory_cluster_start : Nat
  fs_information_sector : Nat
deriving DecidableEq

/-- The fields of the packed `fat_is_t` FS-information-sector overlay that
the driver reads. -/
structure FSInfo where
  free_clusters : Nat
deriving DecidableEq

/-- Decode `fat_bs_t` from a 512-byte sector.  Byte offsets follow the packed
struct layout: jump 0, oem_name 3, bytes_per_sector 11, sectors_per_cluster
13, reserved_sectors 14, number_of_fat 16, root_directories_entries 17,
total_sectors 19, media_descriptor 21, sectors_per_fat 22, sectors_per_track
24, heads 26, hidden_sectors 28, total_sectors_long 32, sectors_per_fat_long
36, drive_description 40, version 42, root_directory_cluster_start 44,
fs_information_sector 48. -/
def decodeBS (b : List Nat) : BootSector :=
  { sectors_per_cluster := byteAt b 13
    reserved_sectors := le16 b 14
    number_of_fat := byteAt b 16
    sectors_per_fat_long := le32 b 36
    root_directory_cluster_start := le32 b 44
    fs_information_sector := le16 b 48 }

/-- Decode `fat_is_t` from a 512-byte sector: signature_start 0,
reserved 4..483, signature_middle 484, free_clusters 488,
allocated_clusters 492. -/
def decodeIS (b : List Nat) : FSInfo :=
  { free_clusters := le32 b 488 }

/-- The translation unit's global mutable state: `cached_disk`,
`cached_partition` (both initialized to `(uint64_t)-1`), `partition_start`,
and the two heap-allocated decoded sectors (`nullptr` ↦ `none`). -/
structure FatState where
  cached_disk : Nat
  cached_partition : Nat
  partition_start : Nat
  fat_bs : Option BootSector
  fat_is : Option FSInfo
deriving DecidableEq

/-- Initial global state: ids are `(uint64_t)-1`, `partition_start` is
zero-initialized, both cached pointers are null. -/
def initState : FatState :=
  { cached_disk := 2 ^ 64 - 1
    cached_partition := 2 ^ 64 - 1
    partition_start := 0
    fat_bs := none
    fat_is := none }

/-- `cache_bs`: one sector read at `partition.start`; on success store the
decoded boot sector, on failure store the null pointer. -/
def cache_bs (d : Disk) (p : Partition) (st : FatState) : FatState :=
  match readSectors d p.start 1 with
  | some b => { st with fat_bs := some (decodeBS b) }
  | none => { st with fat_bs := none }

/-- `cache_is`: computes the FS-information sector address from
`fat_bs->fs_information_sector` and reads one sector there.  The source
dereferences `fat_bs` unconditionally (fat32.cpp line 101); when `fat_bs` is
null that access is a null-pointer dereference, modelled as the `none`
outcome (no normal return). -/
def cache_is (d : Disk) (p : Partition) (st : FatState) : Option FatState :=
  match st.fat_bs with
  | none => none
  | some bs =>
    match readSectors d (p.start + bs.fs_information_sector) 1 with
    | some b => some { st with fat_is := some (decodeIS b) }
    | none => some { st with fat_is := none }

/-- `cache_disk_partition` (the spec's `ensure_cached`): on identity mismatch
records `partition_start`, runs `cache_bs` then `cache_is`, then records the
new identity; returns `fat_bs && fat_is`.  The outer `none` propagates the
null dereference inside `cache_is`. -/
def cache_disk_partition (d : Disk) (p : Partition) (st : FatState) :
    Option (FatState × Bool) :=
  if d.uuid ≠ st.cached_disk ∨ p.uuid ≠ st.cached_partition then
    match cache_is d p (cache_bs d p { st with partition_start := p.start }) with
    | none => none
    | some st2 =>
      let st3 := { st2 with cached_disk := d.uuid, cached_partition := p.uuid }
      some (st3, st3.fat_bs.isSome && st3.fat_is.isSome)
  else
    some (st, st.fat_bs.isSome && st.fat_is.isSome)

/-- The cached geometry as the post-cache code paths see it: the decoded boot
sector plus the recorded `partition_start`. -/
structure Geometry where
  bs : BootSector
  partition_start : Nat
deriving DecidableEq

/-- `cluster_lba`: `fat_begin = partition_start + reserved_sectors` (u64);
`cluster_begin = fat_begin + number_of_fat * sectors_per_fat_long` where the
product is computed in `uint32_t`; result `cluster_begin + (cluster - 2) *
sectors_per_cluster` in `uint64_t`, with the u64 wrap of `cluster - 2`. -/
def cluster_lba (g : Geometry) (cluster : Nat) : Nat :=
  ((g.partition_start + g.bs.reserved_sectors) % 2 ^ 64 +
      g.bs.number_of_fat * g.bs.sectors_per_fat_long % 2 ^ 32 +
      (cluster + (2 ^ 64 - 2)) % 2 ^ 64 * g.bs.sectors_per_cluster) % 2 ^ 64

/-- The FAT sector holding the entry of `cluster`:
`fat_begin + (cluster * 4) / cluster_size` with `cluster * 4` in `uint32_t`
and `cluster_size = 512 * sectors_per_cluster`. -/
def fat_sector_of (g : Geometry) (cluster : Nat) : Nat :=
  ((g.partition_start + g.bs.reserved_sectors) % 2 ^ 64 +
      cluster * 4 % 2 ^ 32 / (512 * g.bs.sectors_per_cluster)) % 2 ^ 64

/-- The index of the entry of `cluster` inside the FAT block read by
`read_fat_value`: `((cluster * 4) % cluster_size) / 4`. -/
def fat_offset_of (g : Geometry) (cluster : Nat) : Nat :=
  cluster * 4 % 2 ^ 32 % (512 * g.bs.sectors_per_cluster) / 4

/-- `read_fat_value`: reads one cluster-sized block of the FAT and returns
the 32-bit entry for `cluster` masked with `0x0FFFFFFF`; returns 0 when the
sector read fails. -/
def read_fat_value (d : Disk) (g : Geometry) (cluster : Nat) : Nat :=
  match readSectors d (fat_sector_of g cluster) g.bs.sectors_per_cluster with
  | some b => le32 b (4 * fat_offset_of g cluster) &&& 0x0FFFFFFF
  | none => 0

/-- `next_cluster`: masked values `≥ 0x0FFFFFF8` (end-of-chain) become 0,
every other value is returned unchanged. -/
def next_cluster (d : Disk) (g : Geometry) (cluster : Nat) : Nat :=
  if 0x0FFFFFF8 ≤ read_fat_value d g cluster then 0
  else read_fat_value d g cluster

/-- The fields of the packed 32-byte `cluster_entry` directory record that
the driver reads: `name` (bytes 0..10), `attrib` (byte 11), `cluster_high`
(u16 at 20), `cluster_low` (u16 at 26), `file_size` (u32 at 28). -/
structure Entry where
  name : List Nat
  attrib : Nat
  cluster_high : Nat
  cluster_low : Nat
  file_size : Nat
deriving DecidableEq

/-- Decode one 32-byte directory entry from a buffer slice. -/
def decodeEntry (b : List Nat) : Entry :=
  { name := (List.range 11).map (fun i => byteAt b i)
    attrib := byteAt b 11
    cluster_high := le16 b 20
    cluster_low := le16 b 26
    file_size := le32 b 28 }

/-- Overlay a cluster buffer (`spc` sectors) as `16 * spc` directory
entries, as `unique_heap_array<cluster_entry>` iteration does. -/
def decodeEntries (spc : Nat) (b : List Nat) : List Entry :=
  (List.range (16 * spc)).map (fun i => decodeEntry ((b.drop (32 * i)).take 32))

/-- Read one full directory cluster (`sectors_per_cluster` sectors at
`cluster_lba cluster`) and decode its entries. -/
def readCluster (d : Disk) (g : Geometry) (cluster : Nat) : Option (List Entry) :=
  (readSectors d (cluster_lba g cluster) g.bs.sectors_per_cluster).map
    (decodeEntries g.bs.sectors_per_cluster)

/-- `entry_used`: first name byte differs from `0xE5`. -/
def entry_used (e : Entry) : Bool :=
  e.name.getD 0 0 != 0xE5

/-- `end_of_directory`: first name byte is 0. -/
def end_of_directory (e : Entry) : Bool :=
  e.name.getD 0 0 == 0

/-- `is_long_name`: attribute byte is exactly `0x0F`. -/
def is_long_name (e : Entry) : Bool :=
  e.attrib == 0x0F

/-- Auxiliary countdown recursion for `filename_length`: scan positions
`s, s+1, ...` of the fixed 11-byte field while `rem` positions remain,
returning the first position holding a space, or 11. -/
def filename_length_go (name : List Nat) : Nat → Nat → Nat
  | 0, _ => 11
  | rem + 1, s => if name.getD s 0 = 32 then s else filename_length_go name rem (s + 1)

/-- `filename_length`: index of the first space among bytes 0..10 of the raw
short-name field, or 11 when no space occurs. -/
def filename_length (name : List Nat) : Nat :=
  filename_length_go name 11 0

/-- `filename_equals`: the candidate string matches iff its length equals
`filename_length name` and every byte up to that length agrees. -/
def filename_equals (name : List Nat) (path : List Nat) : Bool :=
  if path.length ≠ filename_length name then false
  else (List.range (filename_length name)).all fun i => path.getD i 0 == name.getD i 0

/-- Outcome of one pass of the `for(auto& entry : current_cluster)` search
loop of `find_cluster_number` for one path segment. -/
inductive ScanOut where
  | endReached
  | matched (c : Nat)
  | noMatch
deriving DecidableEq

/-- One pass over the entries of the current directory cluster looking for
path segment `p`: stop at an end-of-directory entry; otherwise the first
used, non-long-name entry with the directory bit set whose short name equals
`p` yields its cluster number `cluster_low + (cluster_high << 16)`. -/
def scanSegment (p : List Nat) : List Entry → ScanOut
  | [] => ScanOut.noMatch
  | e :: rest =>
    if end_of_directory e then ScanOut.endReached
    else if entry_used e && !is_long_name e && (e.attrib &&& 0x10 != 0) &&
        filename_equals e.name p then
      ScanOut.matched (e.cluster_low + e.cluster_high * 65536)
    else scanSegment p rest

/-- Outcome of the per-segment `while(!found)` loop: either the whole
resolver returns `r`, or the segment was found and the search continues into
directory cluster `c` whose first cluster is already decoded. -/
inductive SegOut where
  | ret (r : Bool × Nat)
  | go (c : Nat) (entries : List Entry)
deriving DecidableEq

/-- The `while(!found)` loop of `find_cluster_number` for one segment, with
explicit fuel.  Mirrors the source exactly: after an end-of-directory entry
is seen (`end_reached` set, `found` still false) the advance branch is
skipped and the loop rescans the same buffer, so the recursion repeats with
unchanged arguments. -/
def segLoop (d : Disk) (g : Geometry) (p : List Nat) (isLast : Bool) :
    Nat → Nat → List Entry → Option SegOut
  | 0, _, _ => none
  | fuel + 1, cluster, entries =>
    match scanSegment p entries with
    | ScanOut.endReached => segLoop d g p isLast fuel cluster entries
    | ScanOut.matched c =>
      if isLast then some (SegOut.ret (true, c))
      else
        match readCluster d g c with
        | some es => some (SegOut.go c es)
        | none => some (SegOut.ret (false, 0))
    | ScanOut.noMatch =>
      if next_cluster d g cluster = 0 then some (SegOut.ret (false, 0))
      else if next_cluster d g cluster = 0x0FFFFFF7 then some (SegOut.ret (false, 0))
      else
        match readCluster d g (next_cluster d g cluster) with
        | some es => segLoop d g p isLast fuel (next_cluster d g cluster) es
        | none => some (SegOut.ret (false, 0))

/-- The `for(size_t i ...)` loop of `find_cluster_number` over the path
segments, threading the current cluster number and decoded buffer. -/
def segsLoop (d : Disk) (g : Geometry) (fuel : Nat) :
    List (List Nat) → Nat → List Entry → Option (Bool × Nat)
  | [], _, _ => some (false, 0)
  | p :: rest, cluster, entries =>
    match segLoop d g p rest.isEmpty fuel cluster entries with
    | none => none
    | some (SegOut.ret r) => some r
    | some (SegOut.go c es) => segsLoop d g fuel rest c es

/-- `find_cluster_number`: empty path resolves to the root directory start
cluster; otherwise read the root cluster and search segment by segment.
`none` means the source loops forever within the given fuel. -/
def find_cluster_number (d : Disk) (g : Geometry) (fuel : Nat) :
    List (List Nat) → Option (Bool × Nat)
  | [] => some (true, g.bs.root_directory_cluster_start)
  | p :: rest =>
    match readCluster d g g.bs.root_directory_cluster_start with
    | some entries =>
      segsLoop d g fuel (p :: rest) g.bs.root_directory_cluster_start entries
    | none => some (false, 0)

/-- `find_directory_cluster`: resolve the path, then read and decode the
resolved directory's first cluster.  Inner `none` is the failure pair of the
source; outer `none` is resolver divergence. -/
def find_directory_cluster (d : Disk) (g : Geometry) (fuel : Nat)
    (path : List (List Nat)) : Option (Option (List Entry)) :=
  match find_cluster_number d g fuel path with
  | none => none
  | some (false, _) => some none
  | some (true, c) =>
    match readCluster d g c with
    | some entries => some (some entries)
    | none => some none

/-- The `disks::file` record populated by `files`. -/
structure DFile where
  file_name : List Nat
  hidden : Bool
  system : Bool
  directory : Bool
  size : Nat
deriving DecidableEq

/-- Build one `disks::file` from a used directory entry: long-name entries
get the placeholder name `"LONG"`, otherwise the name bytes up to the first
space; attribute bits 0x1/0x2/0x10 become the flags; directories report one
cluster's byte size, files their stored 32-bit size. -/
def entry_to_file (bs : BootSector) (e : Entry) : DFile :=
  { file_name :=
      if is_long_name e then [76, 79, 78, 71]
      else e.name.takeWhile (fun b => b != 32)
    hidden := e.attrib &&& 0x1 != 0
    system := e.attrib &&& 0x2 != 0
    directory := e.attrib &&& 0x10 != 0
    size :=
      if e.attrib &&& 0x10 != 0 then bs.sectors_per_cluster * 512
      else e.file_size }

/-- The `for(auto& entry : cluster)` loop of `files`: collect records of the
used entries before the first end-of-directory entry; the Bool records
whether an end-of-directory entry was seen (`end_reached`). -/
def collectFiles (bs : BootSector) : List Entry → List DFile × Bool
  | [] => ([], false)
  | e :: rest =>
    if end_of_directory e then ([], true)
    else
      let pr := collectFiles bs rest
      if entry_used e then (entry_to_file bs e :: pr.1, pr.2) else pr

/-- The `while(!end_reached)` loop of `files`, with explicit fuel.  Mirrors
the source exactly, including the defect that `cluster_number` is
re-initialized from the resolver result at the top of every iteration
(fat32.cpp line 309), so the FAT advance at line 371 is a dead store and the
loop always re-reads `startCluster`. -/
def filesLoop (d : Disk) (g : Geometry) (startCluster : Nat) (acc : List DFile) :
    Nat → Option (List DFile)
  | 0 => none
  | fuel + 1 =>
    match readCluster d g startCluster with
    | none => some acc
    | some entries =>
      let pr := collectFiles g.bs entries
      if pr.2 then some (acc ++ pr.1)
      else if next_cluster d g startCluster = 0 then some (acc ++ pr.1)
      else if next_cluster d g startCluster = 0x0FFFFFF7 then some (acc ++ pr.1)
      else filesLoop d g startCluster (acc ++ pr.1) fuel

/-- `files` (the spec's `list`, §4.6, after the cache step): resolve the
path, then enumerate directory records.  `none` means divergence. -/
def files (d : Disk) (g : Geometry) (fuel : Nat) (path : List (List Nat)) :
    Option (List DFile) :=
  match find_cluster_number d g fuel path with
  | none => none
  | some (false, _) => some []
  | some (true, c) => filesLoop d g c [] fuel

/-- The search loop of `read_file` over the parent directory's first
cluster: stop at an end-of-directory entry; otherwise return the first used,
non-long-name entry with the directory bit clear whose short name equals
`file`. -/
def findFileEntry (file : List Nat) : List Entry → Option Entry
  | [] => none
  | e :: rest =>
    if end_of_directory e then none
    else if entry_used e && !is_long_name e && (e.attrib &&& 0x10 == 0) &&
        filename_equals e.name file then
      some e
    else findFileEntry file rest

/-- The starting cluster computed from a directory entry,
`cluster_low + (cluster_high << 16)`.  The C++ computes this in `int`; the
model coincides with the source whenever `cluster_high < 0x8000` (the whole
28-bit cluster regime), which the theorems assume. -/
def entry_start_cluster (e : Entry) : Nat :=
  e.cluster_low + e.cluster_high * 65536

/-- The `while(read < entry.file_size)` loop of `read_file`, with explicit
fuel: read one cluster-sized block, append `min (cluster_size)
(size - read)` of its bytes (the `for` loop with the double bound), and if
bytes remain advance along the FAT chain, stopping on a failed sector read,
a missing successor, or the corruption sentinel.  The content accumulated so
far is returned in every stopping case.  The initial `content` models the
repository's `std::string content(entry.file_size + 1)` as an
capacity-only reservation (the string starts empty), per spec §4.7 — the
custom string class is not part of the sources under review. -/
def readContentLoop (d : Disk) (g : Geometry) (size : Nat) :
    Nat → Nat → Nat → List Nat → Option (List Nat)
  | 0, _, _, _ => none
  | fuel + 1, cluster, read, content =>
    if read < size then
      match readSectors d (cluster_lba g cluster) g.bs.sectors_per_cluster with
      | none => some content
      | some sec =>
        let k := min (512 * g.bs.sectors_per_cluster) (size - read)
        if read + k < size then
          if next_cluster d g cluster = 0 then some (content ++ sec.take k)
          else if next_cluster d g cluster = 0x0FFFFFF7 then some (content ++ sec.take k)
          else
            readContentLoop d g size fuel (next_cluster d g cluster) (read + k)
              (content ++ sec.take k)
        else some (content ++ sec.take k)
    else some content

/-- `fat32::read_file` after the cache step (spec §4.7): resolve the parent
directory, read its first cluster only, search it for the file entry, then
reassemble the content along the FAT chain.  Empty content is returned on
any failure; outer `none` is loop divergence. -/
def read_file_impl (d : Disk) (g : Geometry) (fuel : Nat)
    (path : List (List Nat)) (file : List Nat) : Option (List Nat) :=
  match find_directory_cluster d g fuel path with
  | none => none
  | some none => some []
  | some (some entries) =>
    match findFileEntry file entries with
    | none => some []
    | some e => readContentLoop d g e.file_size fuel (entry_start_cluster e) 0 []

/-- `fat32::free_size`: ensure the cache, then
`fat_is->free_clusters * fat_bs->sectors_per_cluster * 512`, computed in
`uint32_t` (both multiplications wrap mod `2^32`) before widening to the
`uint64_t` return value.  Returns 0 when the cache reports failure; `none`
propagates the null dereference of `cache_is`. -/
def free_size (d : Disk) (p : Partition) (st : FatState) :
    Option (FatState × Nat) :=
  match cache_disk_partition d p st with
  | none => none
  | some (st2, false) => some (st2, 0)
  | some (st2, true) =>
    match st2.fat_is, st2.fat_bs with
    | some fi, some bs =>
      some (st2, fi.free_clusters * bs.sectors_per_cluster % 2 ^ 32 * 512 % 2 ^ 32)
    | _, _ => some (st2, 0)

/-- Modelled from the spec: §4.7's description of content reassembly.
`ChainRead d g size cluster read suffix` holds when, starting at `cluster`
with `read` bytes already accumulated out of the declared `size`, the reader
appends exactly `suffix`: `min (cluster_size) (size - read)` bytes per
cluster, advancing via the FAT Chain Walker after each cluster, until the
declared size is accumulated, a sector read fails, there is no successor, or
the successor equals the corruption sentinel `0x0FFFFFF7`. -/
inductive ChainRead (d : Disk) (g : Geometry) (size : Nat) :
    Nat → Nat → List Nat → Prop where
  | done (cluster read : Nat) (h : size ≤ read) : ChainRead d g size cluster read []
  | readFail (cluster read : Nat) (h : read < size)
      (hr : readSectors d (cluster_lba g cluster) g.bs.sectors_per_cluster = none) :
      ChainRead d g size cluster read []
  | lastChunk (cluster read : Nat) (sec : List Nat) (h : read < size)
      (hr : readSectors d (cluster_lba g cluster) g.bs.sectors_per_cluster = some sec)
      (hk : size ≤ read + min (512 * g.bs.sectors_per_cluster) (size - read)) :
      ChainRead d g size cluster read
        (sec.take (min (512 * g.bs.sectors_per_cluster) (size - read)))
  | noSucc (cluster read : Nat) (sec : List Nat) (h : read < size)
      (hr : readSectors d (cluster_lba g cluster) g.bs.sectors_per_cluster = some sec)
      (hk : read + min (512 * g.bs.sectors_per_cluster) (size - read) < size)
      (hn : next_cluster d g cluster = 0 ∨ next_cluster d g cluster = 0x0FFFFFF7) :
      ChainRead d g size cluster read
        (sec.take (min (512 * g.bs.sectors_per_cluster) (size - read)))
  | chunk (cluster read : Nat) (sec rest : List Nat) (h : read < size)
      (hr : readSectors d (cluster_lba g cluster) g.bs.sectors_per_cluster = some sec)
      (hk : read + min (512 * g.bs.sectors_per_cluster) (size - read) < size)
      (hn0 : next_cluster d g cluster ≠ 0)
      (hn7 : next_cluster d g cluster ≠ 0x0FFFFFF7)
      (htail : ChainRead d g size (next_cluster d g cluster)
        (read + min (512 * g.bs.sectors_per_cluster) (size - read)) rest) :
      ChainRead d g size cluster read
        (sec.take (min (512 * g.bs.sectors_per_cluster) (size - read)) ++ rest)

/-- Modelled from the spec: §8's re-encoding of a valid 8.3 name into the
fixed 11-byte space-padded on-disk field. -/
def encode83 (s : List Nat) : List Nat :=
  s ++ List.replicate (11 - s.length) 32

/-- A minimal geometry for concrete runs: one sector per cluster, no
reserved sectors, no FAT copies before the data region, root directory at
cluster 2, so cluster 2 lives at LBA 0 and cluster 3 at LBA 1. -/
def gSmall : Geometry := ⟨⟨1, 0, 0, 0, 2, 0⟩, 0⟩

/-- Demo geometry of spec §8: `sectors_per_cluster = 8`,
`reserved_sectors = 32`, `number_of_fat = 2`, `sectors_per_fat_long = 100`,
root cluster 2, `partition.start = 2048`. -/
def gDemo : Geometry := ⟨⟨8, 32, 2, 100, 2, 0⟩, 2048⟩

/-- A disk whose only readable sector is an all-zero sector 0: the root
directory starts with an end-of-directory entry, and the FAT entry of
cluster 2 decodes to 0 from a successful read. -/
def dEmptyDir : Disk := ⟨1, fun lba => if lba = 0 then some (List.replicate 512 0) else none⟩

/-- The decoded root-directory entries of `dEmptyDir`. -/
def entsEmpty : List Entry := (readCluster dEmptyDir gSmall 2).getD []

/-- Sector 0 of `dSpin`: sixteen used directory entries (first name byte 65,
so neither deleted nor end-of-directory) and, overlapping at byte 8, a FAT
entry of value 3 for cluster 2 — a directory whose first cluster is full and
whose chain continues at cluster 3. -/
def spinSector : List Nat :=
  (List.range 512).map fun i => if i % 32 = 0 then 65 else if i = 8 then 3 else 0

/-- Disk exercising the multi-cluster directory listing path. -/
def dSpin : Disk := ⟨2, fun lba => if lba = 0 then some spinSector else none⟩

/-- The decoded entries of the first (full) directory cluster of `dSpin`. -/
def entsSpin : List Entry := (readCluster dSpin gSmall 2).getD []

/-- A disk on which every sector read fails. -/
def dDead : Disk := ⟨3, fun _ => none⟩

/-- A partition starting at LBA 0. -/
def pOne : Partition := ⟨1, 0⟩

/-- Sector 0 of `dC4`: one directory entry named `FOO` (8.3-padded), archive
attribute `0x20`, starting cluster 3, file size 5; the following entry is
end-of-directory. -/
def fooSector : List Nat :=
  [70, 79, 79, 32, 32, 32, 32, 32, 32, 32, 32, 32] ++ List.replicate 14 0 ++
    [3, 0] ++ [5, 0, 0, 0] ++ List.replicate 480 0

/-- Disk exercising the file-read path: root directory in sector 0, the file
content `[100, 101, 102, 103, 104]` at cluster 3 (LBA 1). -/
def dC4 : Disk :=
  ⟨4, fun lba =>
    if lba = 0 then some fooSector
    else if lba = 1 then some ([100, 101, 102, 103, 104] ++ List.replicate 507 0)
    else none⟩

/-- The decoded root-directory entries of `dC4`. -/
def entsC4 : List Entry := (readCluster dC4 gSmall 2).getD []

/-- The directory entry of `FOO` on `dC4`. -/
def eC4 : Entry := ⟨[70, 79, 79, 32, 32, 32, 32, 32, 32, 32, 32], 32, 0, 3, 5⟩

/-- Sector 0 of `dSent`: the FAT entry of cluster 2 holds raw value
`0xFFFFFFF7`, whose 28-bit masked value is the corruption sentinel
`0x0FFFFFF7`. -/
def sentSector : List Nat :=
  List.replicate 8 0 ++ [0xF7, 0xFF, 0xFF, 0xFF] ++ List.replicate 500 0

/-- Disk exercising the FAT mask and sentinel pass-through. -/
def dSent : Disk := ⟨5, fun lba => if lba = 0 then some sentSector else none⟩

/-- Boot-sector bytes declaring `sectors_per_cluster = 1`,
`number_of_fat = 2`, `sectors_per_fat_long = 0x80000000` and root cluster 2:
a decodable geometry whose `number_of_fat * sectors_per_fat_long` product
overflows `uint32_t`. -/
def bootOvf : List Nat :=
  (((((List.replicate 512 0).set 13 1).set 16 2).set 39 128).set 44 2)

/-- The decoded overflow geometry at partition start 0. -/
def gOvf : Geometry := ⟨decodeBS bootOvf, 0⟩

/-- Boot-sector bytes for the free-size overflow disk:
`sectors_per_cluster = 1`, FS-information sector at offset 1. -/
def bootC7 : List Nat := ((List.replicate 512 0).set 13 1).set 48 1

/-- FS-information bytes declaring `free_clusters = 0x00800000 = 2^23`. -/
def isC7 : List Nat := (List.replicate 512 0).set 490 128

/-- Disk with readable boot and FS-information sectors whose
`free_clusters * sectors_per_cluster * 512` equals exactly `2^32`. -/
def dC7 : Disk :=
  ⟨7, fun lba => if lba = 0 then some bootC7 else if lba = 1 then some isC7 else none⟩

/-- Partition companion of `dC7`. -/
def p7 : Partition := ⟨7, 0⟩

/-- Boot-sector bytes pointing the FS-information sector at offset 5. -/
def bootW9 : List Nat := (List.replicate 512 0).set 48 5

/-- Disk whose boot sector is readable but whose FS-information sector
(LBA 5) is not. -/
def dW9 : Disk := ⟨9, fun lba => if lba = 0 then some bootW9 else none⟩

/-- Partition companion of `dW9`. -/
def p9 : Partition := ⟨9, 0⟩

theorem segLoop_endReached_none (d : Disk) (g : Geometry) (p : List Nat) (b : Bool)
    (cluster : Nat) (entries : List Entry)
    (h : scanSegment p entries = ScanOut.endReached) :
    ∀ fuel, segLoop d g p b fuel cluster entries = none := by
  intro fuel
  induction fuel with
  | zero => rfl
  | succ n ih => simp only [segLoop, h]; exact ih

theorem filesLoop_spin (d : Disk) (g : Geometry) (c : Nat) (entries : List Entry)
    (h1 : readCluster d g c = some entries)
    (h2 : (collectFiles g.bs entries).2 = false)
    (h3 : next_cluster d g c ≠ 0)
    (h4 : next_cluster d g c ≠ 0x0FFFFFF7) :
    ∀ fuel acc, filesLoop d g c acc fuel = none := by
  intro fuel
  induction fuel with
  | zero => intro acc; rfl
  | succ n ih =>
    intro acc
    simp only [filesLoop, h1, h2, h3, h4, if_false, Bool.false_eq_true]
    exact ih _

theorem filename_length_go_spec (name : List Nat) :
    ∀ rem s, s + rem = 11 →
      s ≤ filename_length_go name rem s ∧
      filename_length_go name rem s ≤ 11 ∧
      (∀ j, s ≤ j → j < filename_length_go name rem s → name.getD j 0 ≠ 32) ∧
      (filename_length_go name rem s < 11 →
        name.getD (filename_length_go name rem s) 0 = 32) := by
  intro rem
  induction rem with
  | zero =>
    intro s hs
    simp only [filename_length_go]
    refine ⟨by omega, by omega, fun j h1 h2 => by omega, fun h => by omega⟩
  | succ n ih =>
    intro s hs
    by_cases hsp : name.getD s 0 = 32
    · simp only [filename_length_go, if_pos hsp]
      exact ⟨Nat.le_refl s, by omega, fun j h1 h2 => by omega, fun _ => hsp⟩
    · simp only [filename_length_go, if_neg hsp]
      obtain ⟨ih1, ih2, ih3, ih4⟩ := ih (s + 1) (by omega)
      refine ⟨by omega, ih2, ?_, ih4⟩
      intro j h1 h2
      rcases Nat.eq_or_lt_of_le h1 with h | h
      · exact h ▸ hsp
      · exact ih3 j (by omega) h2

theorem filename_length_spec (name : List Nat) :
    filename_length name ≤ 11 ∧
    (∀ j, j < filename_length name → name.getD j 0 ≠ 32) ∧
    (filename_length name < 11 → name.getD (filename_length name) 0 = 32) := by
  obtain ⟨h1, h2, h3, h4⟩ := filename_length_go_spec name 11 0 rfl
  exact ⟨h2, fun j hj => h3 j (Nat.zero_le j) hj, h4⟩

theorem filename_length_eq_of (name : List Nat) (L : Nat) (hL : L ≤ 11)
    (h1 : ∀ j, j < L → name.getD j 0 ≠ 32) (h2 : L < 11 → name.getD L 0 = 32) :
    filename_length name = L := by
  obtain ⟨ha, hb, hc⟩ := filename_length_spec name
  rcases Nat.lt_trichotomy (filename_length name) L with h | h | h
  · exact absurd (hc (by omega)) (h1 _ h)
  · exact h
  · exact absurd (h2 (by omega)) (hb _ h)

theorem filename_equals_iff (name path : List Nat) :
    filename_equals name path = true ↔
      path.length = filename_length name ∧
        ∀ i, i < filename_length name → path.getD i 0 = name.getD i 0 := by
  by_cases h : path.length = filename_length name
  · simp [filename_equals, h, List.all_eq_true, List.mem_range]
  · simp [filename_equals, h]

theorem getD_append_lt (l l2 : List Nat) (j : Nat) (h : j < l.length) :
    (l ++ l2).getD j 0 = l.getD j 0 := by
  simp [List.getD_eq_getElem?_getD, List.getElem?_append_left h]

theorem getD_encode83_pad (s : List Nat) (j : Nat) (h1 : s.length ≤ j) (h2 : j < 11) :
    (encode83 s).getD j 0 = 32 := by
  have hj : j - s.length < 11 - s.length := by omega
  simp [encode83, List.getD_eq_getElem?_getD, List.getElem?_append_right h1,
    List.getElem?_replicate, hj]

theorem filename_length_encode83 (s : List Nat) (hlen : s.length ≤ 11)
    (hns : ∀ b ∈ s, b ≠ 32) : filename_length (encode83 s) = s.length := by
  apply filename_length_eq_of _ _ hlen
  · intro j hj
    rw [show encode83 s = s ++ List.replicate (11 - s.length) 32 from rfl,
      getD_append_lt s _ j hj]
    have hg : s.getD j 0 = s[j] := by
      simp [List.getD_eq_getElem?_getD, List.getElem?_eq_getElem hj]
    rw [hg]
    exact hns _ (List.getElem_mem hj)
  · intro h
    exact getD_encode83_pad s s.length (Nat.le_refl _) h

theorem readContentLoop_chainRead (d : Disk) (g : Geometry) (size : Nat)
    (hspc : 1 ≤ g.bs.sectors_per_cluster) :
    ∀ fuel cluster read content, size ≤ read + fuel →
      ∃ suffix,
        readContentLoop d g size (fuel + 1) cluster read content =
          some (content ++ suffix) ∧
        ChainRead d g size cluster read suffix := by
  intro fuel
  induction fuel with
  | zero =>
    intro cluster read content h
    refine ⟨[], ?_, ChainRead.done cluster read (by omega)⟩
    simp [readContentLoop, Nat.not_lt.mpr (show size ≤ read by omega)]
  | succ n ih =>
    intro cluster read content h
    by_cases hr : read < size
    · cases hsec : readSectors d (cluster_lba g cluster) g.bs.sectors_per_cluster with
      | none =>
        refine ⟨[], ?_, ChainRead.readFail cluster read hr hsec⟩
        simp [readContentLoop, hr, hsec]
      | some sec =>
        have h512 : 512 ≤ 512 * g.bs.sectors_per_cluster :=
          Nat.le_mul_of_pos_right 512 (by omega)
        have hk1 : 1 ≤ min (512 * g.bs.sectors_per_cluster) (size - read) := by omega
        by_cases hlt : read + min (512 * g.bs.sectors_per_cluster) (size - read) < size
        · by_cases h0 : next_cluster d g cluster = 0
          · refine ⟨sec.take (min (512 * g.bs.sectors_per_cluster) (size - read)), ?_,
              ChainRead.noSucc cluster read sec hr hsec hlt (Or.inl h0)⟩
            simp [readContentLoop, hr, hsec, hlt, h0]
          · by_cases h7 : next_cluster d g cluster = 0x0FFFFFF7
            · refine ⟨sec.take (min (512 * g.bs.sectors_per_cluster) (size - read)), ?_,
                ChainRead.noSucc cluster read sec hr hsec hlt (Or.inr h7)⟩
              simp [readContentLoop, hr, hsec, hlt, h0, h7]
            · obtain ⟨suffix, heq, hcr⟩ := ih (next_cluster d g cluster)
                (read + min (512 * g.bs.sectors_per_cluster) (size - read))
                (content ++ sec.take (min (512 * g.bs.sectors_per_cluster) (size - read)))
                (by omega)
              refine ⟨sec.take (min (512 * g.bs.sectors_per_cluster) (size - read)) ++ suffix,
                ?_, ChainRead.chunk cluster read sec suffix hr hsec hlt h0 h7 hcr⟩
              conv_lhs => rw [readContentLoop]
              simp only [if_pos hr, hsec, if_pos hlt, if_neg h0, if_neg h7]
              rw [heq, List.append_assoc]
        · refine ⟨sec.take (min (512 * g.bs.sectors_per_cluster) (size - read)), ?_,
            ChainRead.lastChunk cluster read sec hr hsec (by omega)⟩
          simp [readContentLoop, hr, hsec, hlt]
    · refine ⟨[], ?_, ChainRead.done cluster read (by omega)⟩
      simp [readContentLoop, hr]

/-- C10: every value `read_fat_value` returns is strictly below `2^28` (the
success branch masks with `0x0FFFFFFF`, the failure branch returns 0), and
hence so is every successor `next_cluster` produces. -/
theorem fat_values_lt_two_pow_28 (d : Disk) (g : Geometry) (cluster : Nat) :
    read_fat_value d g cluster < 2 ^ 28 ∧ next_cluster d g cluster < 2 ^ 28 := by
  have h : read_fat_value d g cluster < 2 ^ 28 := by
    cases hsec : readSectors d (fat_sector_of g cluster) g.bs.sectors_per_cluster with
    | none =>
      simp only [read_fat_value, hsec]
      norm_num
    | some b =>
      have hb : le32 b (4 * fat_offset_of g cluster) &&& 0x0FFFFFFF ≤ 0x0FFFFFFF :=
        Nat.and_le_right
      simp only [read_fat_value, hsec]
      omega
  refine ⟨h, ?_⟩
  unfold next_cluster
  split
  · norm_num
  · exact h

set_option maxRecDepth 40000 in
/-- C5 counterexample: on a disk whose FAT entry for cluster 2 is the value
0 read successfully, `next_cluster` reports no successor (returns 0) even
though the masked entry is below `0x0FFFFFF8` and the FAT sector read did
not fail — refuting "no successor exactly when the masked value is
`≥ 0x0FFFFFF8` or the read failed". -/
theorem next_cluster_zero_entry_cex :
    next_cluster dEmptyDir gSmall 2 = 0 ∧
    read_fat_value dEmptyDir gSmall 2 < 0x0FFFFFF8 ∧
    readSectors dEmptyDir (fat_sector_of gSmall 2) gSmall.bs.sectors_per_cluster ≠
      none := by
  refine ⟨by decide, by decide, by decide⟩

/-- C5 amended: `next_cluster` reports no successor (returns 0) exactly when
the value `read_fat_value` produced is `≥ 0x0FFFFFF8` or is 0 (a failed FAT
sector read yields 0, and a stored zero entry is indistinguishable from it);
a failed read does yield 0; on a successful read the value is the raw
little-endian 32-bit entry reduced mod `2^28` (the mask `0x0FFFFFFF` clears
the top 4 bits); and every value below `0x0FFFFFF8` — including the
corruption sentinel `0x0FFFFFF7` — is passed through unchanged. -/
theorem next_cluster_spec (d : Disk) (g : Geometry) (cluster : Nat) :
    (next_cluster d g cluster = 0 ↔
      0x0FFFFFF8 ≤ read_fat_value d g cluster ∨ read_fat_value d g cluster = 0) ∧
    (readSectors d (fat_sector_of g cluster) g.bs.sectors_per_cluster = none →
      read_fat_value d g cluster = 0) ∧
    (∀ b, readSectors d (fat_sector_of g cluster) g.bs.sectors_per_cluster = some b →
      read_fat_value d g cluster = le32 b (4 * fat_offset_of g cluster) % 2 ^ 28) ∧
    (read_fat_value d g cluster < 0x0FFFFFF8 →
      next_cluster d g cluster = read_fat_value d g cluster) := by
  refine ⟨?_, ?_, ?_, ?_⟩
  · by_cases h : 0x0FFFFFF8 ≤ read_fat_value d g cluster
    · simp [next_cluster, h]
    · simp only [next_cluster, if_neg h]
      omega
  · intro h
    simp [read_fat_value, h]
  · intro b hb
    have hm : (0x0FFFFFFF : Nat) = 2 ^ 28 - 1 := by norm_num
    simp only [read_fat_value, hb, hm]
    exact Nat.and_pow_two_sub_one_eq_mod _ 28
  · intro h
    simp [next_cluster, Nat.not_le.mpr h]

set_option maxRecDepth 40000 in
/-- C5 witness: on `dSent` the raw FAT entry for cluster 2 is `0xFFFFFFF7`;
the read succeeds, the masked value `0x0FFFFFF7` (the corruption sentinel)
is below `0x0FFFFFF8`, and `next_cluster` passes it through unchanged. -/
theorem next_cluster_spec_w :
    next_cluster dSent gSmall 2 = read_fat_value dSent gSmall 2 ∧
    read_fat_value dSent gSmall 2 = 0x0FFFFFF7 := by
  refine ⟨(next_cluster_spec dSent gSmall 2).2.2.2 (by decide), by decide⟩

set_option maxRecDepth 40000 in
/-- C3: when the boot-sector read fails on a fresh (disk, partition)
identity, `cache_bs` leaves the boot-sector pointer null, yet
`cache_disk_partition` still invokes `cache_is`, which dereferences the null
pointer to compute the FS-information address — the call crashes (modelled
`none`) instead of skipping the FS-information read and returning false. -/
theorem ensure_cached_null_deref :
    (cache_bs dDead pOne { initState with partition_start := pOne.start }).fat_bs =
      none ∧
    cache_is dDead pOne
      (cache_bs dDead pOne { initState with partition_start := pOne.start }) = none ∧
    cache_disk_partition dDead pOne initState = none := by
  refine ⟨by decide, by decide, by decide⟩

/-- C8: `filename_equals raw candidate` is true iff the candidate's length
equals `filename_length raw` — the number of leading non-space bytes of the
fixed 11-byte field, 11 when no space occurs — and every corresponding byte
matches exactly (no case normalization); consequently it is reflexive for
any valid 8.3 name (length at most 11, no space byte) re-encoded into the
11-byte space-padded field. -/
theorem filename_equals_spec (name cand s : List Nat) :
    (filename_equals name cand = true ↔
      cand.length = filename_length name ∧
        ∀ i, i < filename_length name → cand.getD i 0 = name.getD i 0) ∧
    filename_length name ≤ 11 ∧
    (∀ i, i < filename_length name → name.getD i 0 ≠ 32) ∧
    (filename_length name < 11 → name.getD (filename_length name) 0 = 32) ∧
    (s.length ≤ 11 → (∀ b ∈ s, b ≠ 32) →
      filename_equals (encode83 s) s = true) := by
  obtain ⟨h1, h2, h3⟩ := filename_length_spec name
  refine ⟨filename_equals_iff name cand, h1, h2, h3, ?_⟩
  intro hlen hns
  rw [filename_equals_iff]
  have he : filename_length (encode83 s) = s.length := filename_length_encode83 s hlen hns
  refine ⟨he.symm, ?_⟩
  intro i hi
  rw [he] at hi
  exact (getD_append_lt s _ i hi).symm

/-- C8 witness: the 8.3 name `FOO` re-encoded into the padded 11-byte field
matches itself. -/
theorem filename_equals_spec_w :
    filename_equals (encode83 [70, 79, 79]) [70, 79, 79] = true :=
  (filename_equals_spec (encode83 [70, 79, 79]) [70, 79, 79] [70, 79, 79]).2.2.2.2
    (by decide) (by decide)

set_option maxRecDepth 40000 in
/-- C6 counterexample: the decodable geometry `gOvf` (two FATs of
`0x80000000` sectors each, one sector per cluster) has
`number_of_fat * sectors_per_fat_long = 2^32`, which the source multiplies
in `uint32_t`; `cluster_to_sector 2` therefore differs from
`partition_start + reserved_sectors + number_of_fat * sectors_per_fat_long +
(2 - 2) * sectors_per_cluster`, refuting the formula for arbitrary cached
geometries. -/
theorem cluster_lba_overflow_cex :
    0 < gOvf.bs.sectors_per_cluster ∧
    cluster_lba gOvf 2 ≠
      gOvf.partition_start + gOvf.bs.reserved_sectors +
        gOvf.bs.number_of_fat * gOvf.bs.sectors_per_fat_long +
        (2 - 2) * gOvf.bs.sectors_per_cluster := by
  refine ⟨by decide, by decide⟩

/-- C6 amended: for every cached geometry with a positive cluster size and
every cluster `≥ 2`, provided the FAT-region product fits in 32 bits and the
resulting sector of cluster `+ 1` fits in 64 bits (so no machine wraparound
occurs), `cluster_to_sector` equals `partition_start + reserved_sectors +
number_of_fats * sectors_per_fat + (cluster - 2) * sectors_per_cluster` and
is strictly increasing in the cluster number; in the §8 demo geometry,
cluster 2 maps to sector 2280 and cluster 3 to 2288. -/
theorem cluster_lba_spec :
    (∀ (g : Geometry) (cluster : Nat),
      2 ≤ cluster →
      0 < g.bs.sectors_per_cluster →
      g.bs.number_of_fat * g.bs.sectors_per_fat_long < 2 ^ 32 →
      g.partition_start + g.bs.reserved_sectors +
          g.bs.number_of_fat * g.bs.sectors_per_fat_long +
          (cluster - 1) * g.bs.sectors_per_cluster < 2 ^ 64 →
      cluster_lba g cluster =
        g.partition_start + g.bs.reserved_sectors +
          g.bs.number_of_fat * g.bs.sectors_per_fat_long +
          (cluster - 2) * g.bs.sectors_per_cluster ∧
      cluster_lba g cluster < cluster_lba g (cluster + 1)) ∧
    cluster_lba gDemo 2 = 2280 ∧ cluster_lba gDemo 3 = 2288 := by
  refine ⟨?_, by decide, by decide⟩
  intro g cluster h2 hspc hprod hbound
  have hc1m : cluster - 1 ≤ (cluster - 1) * g.bs.sectors_per_cluster :=
    Nat.le_mul_of_pos_right _ hspc
  have hc2m : (cluster - 2) * g.bs.sectors_per_cluster ≤
      (cluster - 1) * g.bs.sectors_per_cluster :=
    Nat.mul_le_mul_right _ (by omega)
  have e1 : (g.partition_start + g.bs.reserved_sectors) % 2 ^ 64 =
      g.partition_start + g.bs.reserved_sectors := Nat.mod_eq_of_lt (by omega)
  have e2 : g.bs.number_of_fat * g.bs.sectors_per_fat_long % 2 ^ 32 =
      g.bs.number_of_fat * g.bs.sectors_per_fat_long := Nat.mod_eq_of_lt hprod
  have e3 : (cluster + (2 ^ 64 - 2)) % 2 ^ 64 = cluster - 2 := by
    have hx : cluster + (2 ^ 64 - 2) = (cluster - 2) + 2 ^ 64 := by omega
    rw [hx, Nat.add_mod_right, Nat.mod_eq_of_lt (by omega)]
  have e4 : (cluster + 1 + (2 ^ 64 - 2)) % 2 ^ 64 = cluster - 1 := by
    have hx : cluster + 1 + (2 ^ 64 - 2) = (cluster - 1) + 2 ^ 64 := by omega
    rw [hx, Nat.add_mod_right, Nat.mod_eq_of_lt (by omega)]
  have hval : cluster_lba g cluster =
      g.partition_start + g.bs.reserved_sectors +
        g.bs.number_of_fat * g.bs.sectors_per_fat_long +
        (cluster - 2) * g.bs.sectors_per_cluster := by
    rw [cluster_lba, e1, e2, e3, Nat.mod_eq_of_lt (by omega)]
  have hval1 : cluster_lba g (cluster + 1) =
      g.partition_start + g.bs.reserved_sectors +
        g.bs.number_of_fat * g.bs.sectors_per_fat_long +
        (cluster - 1) * g.bs.sectors_per_cluster := by
    rw [cluster_lba, e1, e2, e4, Nat.mod_eq_of_lt (by omega)]
  have hmul : (cluster - 2) * g.bs.sectors_per_cluster <
      (cluster - 1) * g.bs.sectors_per_cluster :=
    Nat.mul_lt_mul_of_pos_right (by omega) hspc
  exact ⟨hval, by rw [hval, hval1]; omega⟩

/-- C6 witness: the amended statement instantiated at the §8 demo geometry,
cluster 2. -/
theorem cluster_lba_spec_w :
    cluster_lba gDemo 2 =
      gDemo.partition_start + gDemo.bs.reserved_sectors +
        gDemo.bs.number_of_fat * gDemo.bs.sectors_per_fat_long +
        (2 - 2) * gDemo.bs.sectors_per_cluster ∧
    cluster_lba gDemo 2 < cluster_lba gDemo (2 + 1) :=
  cluster_lba_spec.1 gDemo 2 (by decide) (by decide) (by decide) (by decide)


set_option maxRecDepth 40000 in
set_option maxHeartbeats 2000000 in
/-- C7 counterexample: on `dC7` both the boot sector and the FS-information
sector are readable and decode to `free_clusters = 2^23`,
`sectors_per_cluster = 1`, whose exact product with 512 is `2^32`; the
source computes the product in `uint32_t`, so `free_size` returns 0 instead
of the exact value, refuting the claim's exact-arithmetic equation. -/
theorem free_size_overflow_cex :
    (free_size dC7 p7 initState).map (fun r => r.2) = some 0 ∧
    (decodeIS (norm512 isC7)).free_clusters *
        (decodeBS (norm512 bootC7)).sectors_per_cluster * 512 = 2 ^ 32 ∧
    (free_size dC7 p7 initState).map (fun r => r.2) ≠
      some ((decodeIS (norm512 isC7)).free_clusters *
        (decodeBS (norm512 bootC7)).sectors_per_cluster * 512) := by
  refine ⟨by decide, by decide, by decide⟩

/-- C7 amended: for every fresh (disk, partition) identity whose boot sector
and FS-information sector are readable, `free_size` returns
`free_clusters * sectors_per_cluster * 512` reduced mod `2^32` (the product
is computed in 32-bit arithmetic before widening to the u64 return value,
so it equals the exact product only when that product is below `2^32`); it
returns 0 when the FS-information read fails. -/
theorem free_size_spec (d : Disk) (p : Partition) (st : FatState)
    (hmiss : d.uuid ≠ st.cached_disk ∨ p.uuid ≠ st.cached_partition) :
    (∀ bb ib, readSectors d p.start 1 = some bb →
      readSectors d (p.start + (decodeBS bb).fs_information_sector) 1 = some ib →
      ∃ st2, free_size d p st = some (st2,
        (decodeIS ib).free_clusters * (decodeBS bb).sectors_per_cluster * 512 %
          2 ^ 32)) ∧
    (∀ bb, readSectors d p.start 1 = some bb →
      readSectors d (p.start + (decodeBS bb).fs_information_sector) 1 = none →
      ∃ st2, free_size d p st = some (st2, 0)) := by
  constructor
  · intro bb ib hb hi
    refine ⟨FatState.mk d.uuid p.uuid p.start (some (decodeBS bb))
      (some (decodeIS ib)), ?_⟩
    simp only [free_size, cache_disk_partition, if_pos hmiss, cache_bs, hb, cache_is, hi,
      Option.isSome_some, Bool.and_self, Nat.mod_mul_mod]
  · intro bb hb hi
    refine ⟨FatState.mk d.uuid p.uuid p.start (some (decodeBS bb)) none, ?_⟩
    simp only [free_size, cache_disk_partition, if_pos hmiss, cache_bs, hb, cache_is, hi,
      Option.isSome_some, Option.isSome_none, Bool.and_false]

set_option maxRecDepth 40000 in
set_option maxHeartbeats 2000000 in
/-- C7 witness: the amended statement instantiated on `dC7`, where the
32-bit product wraps to 0. -/
theorem free_size_spec_w :
    ∃ st2, free_size dC7 p7 initState = some (st2,
      (decodeIS (norm512 isC7)).free_clusters *
        (decodeBS (norm512 bootC7)).sectors_per_cluster * 512 % 2 ^ 32) :=
  (free_size_spec dC7 p7 initState (by decide)).1 (norm512 bootC7) (norm512 isC7)
    (by decide) (by decide)

/-- C9 counterexample: on a fresh identity whose boot-sector read fails, the
claim would have `ensure_cached` return false with the identity recorded;
instead the call never returns normally (it dereferences the null
boot-sector pointer inside `cache_is`), so no such returned state exists. -/
theorem ensure_cached_sticky_cex :
    ¬ ∃ st2, cache_disk_partition dDead pOne initState = some (st2, false) ∧
        st2.cached_disk = dDead.uuid ∧ st2.cached_partition = pOne.uuid := by
  rintro ⟨st2, h, -, -⟩
  rw [show cache_disk_partition dDead pOne initState = none by decide] at h
  exact Option.noConfusion h

/-- C9 amended: when `ensure_cached` attempts the reads for a new
(disk, partition) identity, the boot-sector read succeeds and the
FS-information read fails, it still records that identity as the cached one
and returns false; every subsequent call with the same identity pair leaves
the state unchanged, performs no device reads (the result is independent of
the disk contents), and returns false — the failure is sticky until a
different identity is supplied. -/
theorem ensure_cached_sticky (d : Disk) (p : Partition) (st : FatState)
    (bb : List Nat)
    (hmiss : d.uuid ≠ st.cached_disk ∨ p.uuid ≠ st.cached_partition)
    (hb : readSectors d p.start 1 = some bb)
    (hi : readSectors d (p.start + (decodeBS bb).fs_information_sector) 1 = none) :
    ∃ st2, cache_disk_partition d p st = some (st2, false) ∧
      st2.cached_disk = d.uuid ∧ st2.cached_partition = p.uuid ∧
      st2.fat_bs = some (decodeBS bb) ∧ st2.fat_is = none ∧
      ∀ d2 : Disk, d2.uuid = d.uuid →
        cache_disk_partition d2 p st2 = some (st2, false) := by
  refine ⟨FatState.mk d.uuid p.uuid p.start (some (decodeBS bb)) none,
    ?_, rfl, rfl, rfl, rfl, ?_⟩
  · simp only [cache_disk_partition, if_pos hmiss, cache_bs, hb, cache_is, hi,
      Option.isSome_some, Option.isSome_none, Bool.and_false]
  · intro d2 h2
    simp [cache_disk_partition, h2]

set_option maxRecDepth 40000 in
/-- C2 (code bug): with a non-empty path, when the scan of the current
directory cluster hits an end-of-directory entry before any segment match —
here the root cluster of `dEmptyDir` starts with one — `find_cluster_number`
does not terminate with a failure result: the `while(!found)` loop only
tests `found`, the advance branch is skipped because `end_reached` is set,
and the same buffer is rescanned forever, so the resolver returns nothing
for every fuel bound. -/
theorem resolver_end_nonterminating :
    readCluster dEmptyDir gSmall 2 = some entsEmpty ∧
    scanSegment [65] entsEmpty = ScanOut.endReached ∧
    ∀ fuel, find_cluster_number dEmptyDir gSmall fuel [[65]] = none := by
  refine ⟨rfl, by decide, ?_⟩
  intro fuel
  have hrc : readCluster dEmptyDir gSmall gSmall.bs.root_directory_cluster_start =
      some entsEmpty := rfl
  have hend : scanSegment [65] entsEmpty = ScanOut.endReached := by decide
  have hseg := segLoop_endReached_none dEmptyDir gSmall [65] true
    gSmall.bs.root_directory_cluster_start entsEmpty hend fuel
  simp only [find_cluster_number]
  rw [hrc]
  simp only [segsLoop, List.isEmpty_nil]
  rw [hseg]

set_option maxRecDepth 40000 in
/-- C1 (code bug): on a directory whose chain spans more than one cluster —
the root of `dSpin` fills its first cluster (no end-of-directory entry) and
its FAT successor is the valid cluster 3 — `files` never advances to the
second cluster: `cluster_number` is re-initialized from the resolver result
at the top of each `while` iteration (fat32.cpp line 309), so the listing
re-reads and re-emits the first cluster forever instead of enumerating each
chain cluster exactly once. -/
theorem files_nonterminating :
    (collectFiles gSmall.bs entsSpin).2 = false ∧
    next_cluster dSpin gSmall 2 = 3 ∧
    ∀ fuel, files dSpin gSmall fuel [] = none := by
  refine ⟨by decide, by decide, ?_⟩
  intro fuel
  have hspin := filesLoop_spin dSpin gSmall gSmall.bs.root_directory_cluster_start
    entsSpin rfl (by decide) (by decide) (by decide)
  simp only [files, find_cluster_number]
  exact hspin fuel []

/-- C4: when the parent directory resolves and its first cluster's scan
finds a used, non-long-name, non-directory entry whose short name equals the
requested file name, `read_file` returns exactly the content described by
the spec's chain read: `min (cluster_size) (remaining)` bytes appended per
cluster of the file's chain, advancing via the FAT Chain Walker, stopping
once the declared 32-bit size is accumulated, on a failed sector read, on a
missing successor, or on the corruption sentinel, and returning the content
accumulated so far as-is. -/
theorem read_file_chain (d : Disk) (g : Geometry) (fuel : Nat)
    (path : List (List Nat)) (file : List Nat) (entries : List Entry) (e : Entry)
    (hspc : 1 ≤ g.bs.sectors_per_cluster)
    (hdir : find_directory_cluster d g fuel path = some (some entries))
    (hfind : findFileEntry file entries = some e)
    (hfuel : e.file_size < fuel) :
    ∃ content, read_file_impl d g fuel path file = some content ∧
      ChainRead d g e.file_size (entry_start_cluster e) 0 content := by
  obtain ⟨n, rfl⟩ : ∃ n, fuel = n + 1 := ⟨fuel - 1, by omega⟩
  obtain ⟨suffix, heq, hcr⟩ := readContentLoop_chainRead d g e.file_size hspc n
    (entry_start_cluster e) 0 [] (by omega)
  refine ⟨suffix, ?_, hcr⟩
  simp only [read_file_impl, hdir, hfind]
  simpa using heq

set_option maxRecDepth 40000 in
/-- C4 witness: reading `FOO` (size 5, starting cluster 3) out of the root
directory of `dC4` yields a chain-read content. -/
theorem read_file_chain_w :
    ∃ content, read_file_impl dC4 gSmall 6 [] [70, 79, 79] = some content ∧
      ChainRead dC4 gSmall eC4.file_size (entry_start_cluster eC4) 0 content :=
  read_file_chain dC4 gSmall 6 [] [70, 79, 79] entsC4 eC4 (by decide) (by decide)
    (by decide) (by decide)

set_option maxRecDepth 40000 in
set_option maxHeartbeats 2000000 in
/-- C9 witness: on `dW9` (boot sector readable, FS-information sector at
LBA 5 unreadable) the failed cache is recorded under the new identity and
every repeat call with that identity returns false without reading. -/
theorem ensure_cached_sticky_w :
    ∃ st2, cache_disk_partition dW9 p9 initState = some (st2, false) ∧
      st2.cached_disk = dW9.uuid ∧ st2.cached_partition = p9.uuid ∧
      st2.fat_bs = some (decodeBS (norm512 bootW9)) ∧ st2.fat_is = none ∧
      ∀ d2 : Disk, d2.uuid = dW9.uuid →
        cache_disk_partition d2 p9 st2 = some (st2, false) :=
  ensure_cached_sticky dW9 p9 initState (norm512 bootW9) (by decide) (by decide)
    (by decide)
